import Mathlib

/-!
Verification of the workflow "powerup" layer of the matmethods repository.

The repository's own code is a set of dictionary/object transformations over
workflow descriptions owned by an external orchestration library
(`fireworks`).  We embed the relevant data model (Workflow / Firework / Task /
Tracker) and each powerup from `matmethods/vasp/vasp_powerups.py` and the
workflow builders from `matmethods/lammps/workflows/core.py` as executable
Lean functions, and prove the spec's claims about them.

Modelling conventions:
* Python dicts become association lists (`List (String × String)`), with
  first-match lookup, mirroring dict key lookup; iterating a dict's keys
  becomes iterating the association list in order.
* A serialized FireTask is a record of its registered type name (`fw_name`)
  and its parameter map; `to_dict`/`from_dict` round trips are the identity
  in this model, matching the library's faithful reconstruction.
* Python's `str(task)` (which interpolates the task's `fw_name` and its
  parameter dict) is modelled by `taskStr`.
* Fallible dictionary lookups (Python `KeyError`) are modelled with `Option`.
-/

namespace MM

/-- Is `needle` a character-by-character leading block of `l`? -/
def prefAt : List Char → List Char → Bool
  | [], _ => true
  | _ :: _, [] => false
  | a :: as, b :: bs => a == b && prefAt as bs

/-- Does `needle` occur contiguously anywhere in `l`? -/
def hasSubLC (needle : List Char) (l : List Char) : Bool :=
  prefAt needle l ||
    (match l with
     | [] => false
     | _ :: bs => hasSubLC needle bs)

/-- Python's substring test for strings: `needle in hay`. -/
def strContains (hay needle : String) : Bool :=
  hasSubLC needle.toList hay.toList

/-- A fireworks `Tracker`, as constructed in `add_trackers`. -/
structure Tracker where
  filename : String
  nlines : Nat
  allow_zipped : Bool
deriving DecidableEq, Repr

/-- A serialized FireTask: its registered type name and its parameter map. -/
structure Task where
  fw_name : String
  params : List (String × String)
deriving DecidableEq, Repr

/-- One Firework: its id, free-text name, ordered task list (`spec["_tasks"]`),
the optional `spec["_trackers"]` entry and the optional `spec["_priority"]`
entry. -/
structure Firework where
  fw_id : Int
  name : String
  tasks : List Task
  trackers : Option (List Tracker)
  priority : Option Int
deriving DecidableEq, Repr

/-- A Workflow: its ordered Firework list, its dependency links
(parent id to list of child ids) and its name. -/
structure Workflow where
  fws : List Firework
  links : List (Int × List Int)
  name : String
deriving DecidableEq, Repr

/-- First-match association-list lookup, modelling Python dict lookup. -/
def lookupD (l : List (String × String)) (k : String) : Option String :=
  (l.find? (fun kv => kv.1 = k)).map (fun kv => kv.2)

/-- Replace the element at position `i` by `f` applied to it; out-of-range
indices leave the list unchanged (in the embedded code every index used is
in range). -/
def listUpd {α : Type} : List α → Nat → (α → α) → List α
  | [], _, _ => []
  | x :: xs, 0, f => f x :: xs
  | x :: xs, n + 1, f => x :: listUpd xs n f

/-- Python's `list.insert(i, x)`: a negative index counts from the end and is
clamped at 0; an index past the end appends. -/
def pyInsert {α : Type} (l : List α) (i : Int) (x : α) : List α :=
  let n := l.length
  let j : Nat := if i < 0 then ((n : Int) + i).toNat else min i.toNat n
  l.take j ++ x :: l.drop j

/-- Rendering of a parameter map inside `str(task)`. -/
def paramsRepr : List (String × String) → String
  | [] => ""
  | kv :: rest => kv.1 ++ "=" ++ kv.2 ++ ";" ++ paramsRepr rest

/-- Models the external library's `str(task)`, which interpolates the task's
registered `fw_name` together with its parameter dict. -/
def taskStr (t : Task) : String :=
  "<" ++ t.fw_name ++ ">:" ++ paramsRepr t.params

/-- Embedding of `is_runvasp_task` from vasp_powerups.py: `"RunVasp" in str(task)`. -/
def is_runvasp_task (task : Task) : Bool :=
  strContains (taskStr task) "RunVasp"

/-- Inner loop of `get_runvasp_fws_and_tasks`: `for idx_t, t in
enumerate(fw.tasks): if is_runvasp_task(t): append (idx_fw, idx_t)`,
with `idx_t` starting at `n`. -/
def scanTasks (tasks : List Task) (idx_fw : Nat) (n : Nat) : List (Nat × Nat) :=
  match tasks with
  | [] => []
  | t :: rest =>
    (if is_runvasp_task t then [(idx_fw, n)] else []) ++ scanTasks rest idx_fw (n + 1)

/-- Middle loop of `get_runvasp_fws_and_tasks`: `for job_type in
fake_dirs.keys(): if job_type in fw.name: ...`. -/
def scanLabels (fake_dirs : List (String × String)) (fw : Firework) (idx_fw : Nat) :
    List (Nat × Nat) :=
  match fake_dirs with
  | [] => []
  | jd :: rest =>
    (if strContains fw.name jd.1 then scanTasks fw.tasks idx_fw 0 else []) ++
      scanLabels rest fw idx_fw

/-- Outer loop of `get_runvasp_fws_and_tasks`: `for idx_fw, fw in
enumerate(workflow.fws)`, with `idx_fw` starting at `n`. -/
def scanFWs (fake_dirs : List (String × String)) (fws : List Firework) (n : Nat) :
    List (Nat × Nat) :=
  match fws with
  | [] => []
  | fw :: rest => scanLabels fake_dirs fw n ++ scanFWs fake_dirs rest (n + 1)

/-- Embedding of `get_runvasp_fws_and_tasks` from vasp_powerups.py.

Modelled from the spec: the dict `fake_dirs` (module
`matmethods.vasp.tests.vasp_fake`, not present under src/) is "a fixed set of
known job-type labels" mapped to reference directories; it is passed here as
an explicit association-list parameter. -/
def get_runvasp_fws_and_tasks (fake_dirs : List (String × String)) (workflow : Workflow) :
    List (Nat × Nat) :=
  scanFWs fake_dirs workflow.fws 0

/-- The fireworks library's `Workflow.root_fw_ids`: the ids of Fireworks that
appear as a child in no dependency link (no incoming dependency). -/
def root_fw_ids (wf : Workflow) : List Int :=
  (wf.fws.map (fun fw => fw.fw_id)).filter
    (fun i => !(wf.links.any (fun pl => pl.2.contains i)))

/-- Python's `child_priority or root_priority` on an optional integer:
`None` and the falsy integer `0` both fall back to `root_priority`. -/
def pyIntOr (child : Option Int) (root : Int) : Int :=
  match child with
  | none => root
  | some c => if c = 0 then root else c

/-- Embedding of `decorate_priority` from vasp_powerups.py. -/
def decorate_priority (original_wf : Workflow) (root_priority : Int)
    (child_priority : Option Int) : Workflow :=
  let cp := pyIntOr child_priority root_priority
  let roots := root_fw_ids original_wf
  { original_wf with
    fws := original_wf.fws.map (fun fw =>
      if roots.contains fw.fw_id then { fw with priority := some root_priority }
      else { fw with priority := some cp }) }

/-- Modelled from the spec: the serialized form of
`RunVaspCustodian(**params)` (module `matmethods.vasp.firetasks.run_calc`,
not present under src/), the error-correcting run task carrying exactly the
keyword parameters it was built with. -/
def custodianTask (params : List (String × String)) : Task :=
  { fw_name := "RunVaspCustodian", params := params }

/-- The `use_custodian` loop guard: `fw_name_filter is None or fw_name_filter
in wf_dict["fws"][idx_fw]["name"]`. -/
def custodianNameOk (fw_name_filter : Option String) (wf : Workflow) (idx_fw : Nat) :
    Bool :=
  match fw_name_filter with
  | none => true
  | some f => ((wf.fws.get? idx_fw).map (fun fw => strContains fw.name f)).getD false

/-- The dict assignment `wf_dict["fws"][i]["spec"]["_tasks"][t] = tk`. -/
def replaceTaskAt (wf : Workflow) (i t : Nat) (tk : Task) : Workflow :=
  { wf with
    fws := listUpd wf.fws i (fun fw =>
      { fw with tasks := listUpd fw.tasks t (fun _ => tk) }) }

/-- One iteration of the `use_custodian` loop body on the serialized workflow
dict: if the name filter passes, replace the task at `(idx_fw, idx_t)`; when
`custodian_params` lacks `"vasp_cmd"`, the replacement first reads
`tasks[idx_t]["vasp_cmd"]`, and a missing key is the unguarded lookup
failure (`none`). -/
def custodianStep (fw_name_filter : Option String)
    (custodian_params : List (String × String)) (wf : Workflow) (p : Nat × Nat) :
    Option Workflow :=
  if custodianNameOk fw_name_filter wf p.1 then
    if (lookupD custodian_params "vasp_cmd").isSome then
      some (replaceTaskAt wf p.1 p.2 (custodianTask custodian_params))
    else
      ((wf.fws.get? p.1).bind (fun fw => fw.tasks.get? p.2)).bind (fun tk =>
        (lookupD tk.params "vasp_cmd").map (fun cmd =>
          replaceTaskAt wf p.1 p.2 (custodianTask (("vasp_cmd", cmd) :: custodian_params))))
  else some wf

/-- The `use_custodian` loop over the matched pair list. -/
def custodianSteps (fw_name_filter : Option String)
    (custodian_params : List (String × String)) :
    List (Nat × Nat) → Workflow → Option Workflow
  | [], wf => some wf
  | p :: rest, wf =>
    match custodianStep fw_name_filter custodian_params wf p with
    | none => none
    | some wf2 => custodianSteps fw_name_filter custodian_params rest wf2

/-- Embedding of `use_custodian` from vasp_powerups.py, on the serialized workflow dict. -/
def use_custodian (fake_dirs : List (String × String)) (original_wf : Workflow)
    (fw_name_filter : Option String) (custodian_params : List (String × String)) :
    Option Workflow :=
  custodianSteps fw_name_filter custodian_params
    (get_runvasp_fws_and_tasks fake_dirs original_wf) original_wf

/-- Modelled from the spec: the serialized form of
`RunVaspFake(fake_dir=dir)` (module `matmethods.vasp.tests.vasp_fake`, not
present under src/), the replay task that copies pre-recorded outputs from
`dir`. -/
def fakeTask (dir : String) : Task :=
  { fw_name := "RunVaspFake", params := [("fake_dir", dir)] }

/-- Inner loop of `make_fake_workflow`: the matched task indices of a
Firework paired with the fake directory of the matching job-type label. -/
def fakeScanTasks (tasks : List Task) (idx_fw : Nat) (n : Nat) (dir : String) :
    List (Nat × Nat × String) :=
  match tasks with
  | [] => []
  | t :: rest =>
    (if is_runvasp_task t then [(idx_fw, n, dir)] else []) ++
      fakeScanTasks rest idx_fw (n + 1) dir

/-- Middle loop of `make_fake_workflow` over `fake_dirs.keys()`. -/
def fakeScanLabels (fake_dirs : List (String × String)) (fw : Firework) (idx_fw : Nat) :
    List (Nat × Nat × String) :=
  match fake_dirs with
  | [] => []
  | jd :: rest =>
    (if strContains fw.name jd.1 then fakeScanTasks fw.tasks idx_fw 0 jd.2 else []) ++
      fakeScanLabels rest fw idx_fw

/-- Outer loop of `make_fake_workflow` over `enumerate(original_wf.fws)`. -/
def fakeScanFWs (fake_dirs : List (String × String)) (fws : List Firework) (n : Nat) :
    List (Nat × Nat × String) :=
  match fws with
  | [] => []
  | fw :: rest => fakeScanLabels fake_dirs fw n ++ fakeScanFWs fake_dirs rest (n + 1)

/-- Sequential application of the `make_fake_workflow` dict assignments. -/
def applyFakeUpdates : List (Nat × Nat × String) → List Firework → List Firework
  | [], fws => fws
  | u :: rest, fws =>
    applyFakeUpdates rest
      (listUpd fws u.1 (fun fw =>
        { fw with tasks := listUpd fw.tasks u.2.1 (fun _ => fakeTask u.2.2) }))

/-- Embedding of `make_fake_workflow` from vasp_powerups.py: the matched tasks are read off
the original workflow and the replacements are written to the serialized
dict in scan order. -/
def make_fake_workflow (fake_dirs : List (String × String)) (original_wf : Workflow) :
    Workflow :=
  { original_wf with
    fws := applyFakeUpdates (fakeScanFWs fake_dirs original_wf.fws 0) original_wf.fws }

/-- Modelled from the external fireworks utility `get_slug`: every character
that is not alphanumeric, a dash, a dot or an underscore is replaced by an
underscore.  The claims proved below do not depend on its exact output. -/
def get_slug (s : String) : String :=
  String.mk (s.toList.map (fun c =>
    if c.isAlphanum || c == '-' || c == '.' || c == '_' then c else '_'))

/-- The serialized `FileWriteTask` inserted by `decorate_write_name`: writes
one empty file with the given name. -/
def fileWriteTask (fname : String) : Task :=
  { fw_name := "FileWriteTask",
    params := [("files_to_write", "filename=" ++ fname ++ ",contents=")] }

/-- Embedding of `decorate_write_name` from vasp_powerups.py: every Firework gets a marker
`FileWriteTask` inserted at the front of its `spec["_tasks"]` list. -/
def decorate_write_name (original_wf : Workflow) (use_slug : Bool) : Workflow :=
  { original_wf with
    fws := original_wf.fws.map (fun fw =>
      let fname0 := "FW--" ++ fw.name
      let fname := if use_slug then get_slug fname0 else fname0
      { fw with tasks := pyInsert fw.tasks 0 (fileWriteTask fname) }) }

/-- The first tracker built by `add_trackers`: `Tracker('OUTCAR', nlines=25,
allow_zipped=True)`. -/
def tracker1 : Tracker := { filename := "OUTCAR", nlines := 25, allow_zipped := true }

/-- The second tracker built by `add_trackers`: `Tracker('OSZICAR', nlines=25,
allow_zipped=True)`. -/
def tracker2 : Tracker := { filename := "OSZICAR", nlines := 25, allow_zipped := true }

/-- One iteration of the `add_trackers` loop body: extend the Firework's
`spec["_trackers"]` with the two trackers, creating the entry if absent. -/
def extendTrackers (fw : Firework) : Firework :=
  match fw.trackers with
  | some l => { fw with trackers := some (l ++ [tracker1, tracker2]) }
  | none => { fw with trackers := some [tracker1, tracker2] }

/-- The `add_trackers` loop over the matched pair list. -/
def trackerSteps : List (Nat × Nat) → List Firework → List Firework
  | [], fws => fws
  | p :: rest, fws => trackerSteps rest (listUpd fws p.1 extendTrackers)

/-- Embedding of `add_trackers` from vasp_powerups.py. -/
def add_trackers (fake_dirs : List (String × String)) (original_wf : Workflow) :
    Workflow :=
  { original_wf with
    fws := trackerSteps (get_runvasp_fws_and_tasks fake_dirs original_wf)
      original_wf.fws }

/-- Modelled from the spec: the serialized form of
`ModifyIncar(**params)` (module `matmethods.vasp.firetasks.write_inputs`, not
present under src/), the input-file-modification task carrying exactly the
keyword parameters it was built with. -/
def modifyIncarTask (params : List (String × String)) : Task :=
  { fw_name := "ModifyIncar", params := params }

/-- The `add_modify_incar` loop over the matched pair list: the matching
Firework's task list receives `ModifyIncar` via `insert(idx_t - 1, ...)`,
with Python's signed-index insertion semantics. -/
def incarSteps (fw_name_filter : Option String)
    (modify_incar_params : List (String × String)) :
    List (Nat × Nat) → List Firework → List Firework
  | [], fws => fws
  | p :: rest, fws =>
    let nameOk :=
      match fw_name_filter with
      | none => true
      | some f =>
        match fws.get? p.1 with
        | some fw => strContains fw.name f
        | none => false
    let fws2 :=
      if nameOk then
        listUpd fws p.1 (fun fw =>
          { fw with
            tasks := pyInsert fw.tasks ((p.2 : Int) - 1)
              (modifyIncarTask modify_incar_params) })
      else fws
    incarSteps fw_name_filter modify_incar_params rest fws2

/-- Embedding of `add_modify_incar` from vasp_powerups.py: the pair list is computed once
from the incoming workflow, then the task lists are mutated in place. -/
def add_modify_incar (fake_dirs : List (String × String)) (original_wf : Workflow)
    (modify_incar_params : List (String × String)) (fw_name_filter : Option String) :
    Workflow :=
  { original_wf with
    fws := incarSteps fw_name_filter modify_incar_params
      (get_runvasp_fws_and_tasks fake_dirs original_wf) original_wf.fws }

/-- Modelled from the spec: the serialized form of
`WritelammpsInputFromDictInput` (module
`matmethods.lammps.firetasks.write_inputs`, not present under src/): writes
the rendered input object to `input_file`.  The input object parameter is the
serialized description of the selected template. -/
def writeLammpsTask (dict_input_repr : String) (input_file : String) : Task :=
  { fw_name := "WritelammpsInputFromDictInput",
    params := [("lammps_dict_input", dict_input_repr), ("input_file", input_file)] }

/-- Modelled from the spec: the serialized form of `RunLammpsDirect`
(module `matmethods.lammps.firetasks.run_calc`, not present under src/):
invokes the given shell command directly. -/
def runLammpsTask (lammps_cmd : String) : Task :=
  { fw_name := "RunLammpsDirect", params := [("lammps_cmd", lammps_cmd)] }

/-- Modelled from the external pymatgen constructor
`DictLammpsInput.from_file(...)`: an input description rendered from the
given json template file with the given data and settings. -/
def dictLammpsInputRepr (job_name input_template_file lammps_data data_filename : String)
    (user_settings : List (String × String)) (is_forcefield : Bool) : String :=
  "DictLammpsInput.from_file(" ++ job_name ++ "," ++ input_template_file ++ "," ++
    lammps_data ++ "," ++ data_filename ++ "," ++ paramsRepr user_settings ++ "," ++
    (if is_forcefield then "T" else "F") ++ ")"

/-- Modelled from the external pymatgen constructor `NVTLammpsInput(...)`:
an input description rendered from the built-in NVT template. -/
def nvtLammpsInputRepr (lammps_data data_filename : String)
    (user_lammps_settings : List (String × String)) (is_forcefield : Bool) : String :=
  "NVTLammpsInput(" ++ lammps_data ++ "," ++ data_filename ++ "," ++
    paramsRepr user_lammps_settings ++ "," ++
    (if is_forcefield then "T" else "F") ++ ")"

/-- Embedding of `wf_from_input_template` from lammps/workflows/core.py. -/
def wf_from_input_template (job_name input_template_file lammps_data data_filename : String)
    (user_settings : List (String × String)) (is_forcefield : Bool)
    (input_filename : String) (lammps_bin : String) : Workflow :=
  let lammps_dict_input :=
    dictLammpsInputRepr job_name input_template_file lammps_data data_filename
      user_settings is_forcefield
  let task1 := writeLammpsTask lammps_dict_input input_filename
  let task2 := runLammpsTask (lammps_bin ++ " -in " ++ input_filename)
  let fw1 : Firework :=
    { fw_id := -1, name := "Run lammps", tasks := [task1, task2],
      trackers := none, priority := none }
  { fws := [fw1], links := [],
    name := "LAMMPS Wflow from input template " ++ input_template_file }

/-- Embedding of `nvt_wf` from lammps/workflows/core.py. -/
def nvt_wf (data_input : String) (input_filename : String) (data_filename : String)
    (user_lammps_settings : List (String × String)) (is_forcefield : Bool)
    (lammps_bin : String) : Workflow :=
  let lammps_dict_input :=
    nvtLammpsInputRepr data_input data_filename user_lammps_settings is_forcefield
  let task1 := writeLammpsTask lammps_dict_input input_filename
  let task2 := runLammpsTask (lammps_bin ++ " -in " ++ input_filename)
  let fw1 : Firework :=
    { fw_id := -1, name := "Run lammps", tasks := [task1, task2],
      trackers := none, priority := none }
  { fws := [fw1], links := [], name := "LAMMPS NVT" }

/-- The serialized parameter map of the task sitting at pair `p`, looked up
for `"vasp_cmd"` — the expression `wf_dict["fws"][idx_fw]["spec"]["_tasks"]
[idx_t]["vasp_cmd"]` of the source. -/
def taskVaspCmd (wf : Workflow) (p : Nat × Nat) : Option String :=
  ((wf.fws.get? p.1).bind (fun fw => fw.tasks.get? p.2)).bind
    (fun tk => lookupD tk.params "vasp_cmd")

/-- The tracker block appended by `k` loop iterations: `k` copies of the
fixed pair (OUTCAR, OSZICAR). -/
def trackersAdded : Nat → List Tracker
  | 0 => []
  | k + 1 => trackersAdded k ++ [tracker1, tracker2]

/-- Value of `spec["_trackers"]` after `k` loop iterations hit one Firework:
absent stays absent for `k = 0`, otherwise the old list (or the fresh empty
list) extended by `k` copies of the fixed pair. -/
def appendedTrackers (o : Option (List Tracker)) (k : Nat) : Option (List Tracker) :=
  if k = 0 then o else some (o.getD [] ++ trackersAdded k)

/-- Does the task at position `k` have a string representation containing
"RunVasp"? -/
def taskMatchAt (tasks : List Task) (k : Nat) : Bool :=
  match tasks.get? k with
  | some tk => is_runvasp_task tk
  | none => false

/-- How many known job-type labels are substrings of the Firework name. -/
def labelMatchCount (fake_dirs : List (String × String)) (name : String) : Nat :=
  (fake_dirs.filter (fun jd => strContains name jd.1)).length

/-- Specification-shaped scan, written from the claim's words rather than
from the source's loops: iterate every Firework with its index, for each
Firework every known job-type label, and when the label is a substring of
the Firework's name iterate every task index, appending the pair
(firework-index, task-index) exactly when the task's string representation
contains "RunVasp".  To be compared with `get_runvasp_fws_and_tasks`. -/
def scanSpecPairs (fake_dirs : List (String × String)) (wf : Workflow) :
    List (Nat × Nat) :=
  wf.fws.enum.flatMap (fun pfw =>
    fake_dirs.flatMap (fun jd =>
      if strContains pfw.2.name jd.1 then
        pfw.2.tasks.enum.filterMap (fun pt =>
          if is_runvasp_task pt.2 then some (pfw.1, pt.1) else none)
      else []))

/-- The direct VASP run task used in the concrete scenarios. -/
def runDirectTask : Task := ⟨"RunVaspDirect", [("vasp_cmd", "vasp")]⟩

/-- The concrete one-Firework workflow used against C1 (and as witness input
for C2 and C6): the RunVasp task sits at task index 1, after a write-inputs
task. -/
def wfC1 : Workflow :=
  { fws :=
      [ { fw_id := 1, name := "my static run",
          tasks := [⟨"WriteVaspFromIOSet", []⟩, ⟨"RunVaspDirect", [("vasp_cmd", "vasp")]⟩],
          trackers := none, priority := none } ],
    links := [], name := "wf" }

/-- The concrete one-Firework workflow refuting C2 as stated: its name
matches one job-type label and it holds two RunVasp tasks, so it is hit by
two matched pairs in a single invocation. -/
def wfC2 : Workflow :=
  { fws :=
      [ { fw_id := 1, name := "my static run",
          tasks := [⟨"RunVaspDirect", [("vasp_cmd", "vasp")]⟩,
                    ⟨"RunVaspDirect", [("vasp_cmd", "vasp")]⟩],
          trackers := none, priority := none } ],
    links := [], name := "wf" }

/-- The concrete two-Firework workflow used against C3: firework 1 is the
root, firework 2 its child. -/
def wfC3 : Workflow :=
  { fws :=
      [ { fw_id := 1, name := "structure optimization",
          tasks := [runDirectTask], trackers := none, priority := none },
        { fw_id := 2, name := "static",
          tasks := [runDirectTask], trackers := none, priority := none } ],
    links := [(1, [2])], name := "wf" }

/-- The two-Firework workflow of the C4 scenario: Firework "structure
optimization" and Firework "static", each carrying one non-matching task
`t0` followed by one RunVasp task. -/
def wfC4 (t0 : Task) : Workflow :=
  { fws :=
      [ { fw_id := 1, name := "structure optimization",
          tasks := [t0, runDirectTask], trackers := none, priority := none },
        { fw_id := 2, name := "static",
          tasks := [t0, runDirectTask], trackers := none, priority := none } ],
    links := [(1, [2])], name := "wf" }

/-- The concrete input workflow for the C5 witness: Firework 0 does not
contain the filter substring "static", Firework 1 does. -/
def wfC5 : Workflow :=
  { fws :=
      [ { fw_id := 1, name := "structure optimization run",
          tasks := [⟨"RunVaspDirect", [("vasp_cmd", "vasp")]⟩],
          trackers := none, priority := none },
        { fw_id := 2, name := "my static run",
          tasks := [⟨"RunVaspDirect", [("vasp_cmd", "vasp")]⟩],
          trackers := none, priority := none } ],
    links := [(1, [2])], name := "wf" }

/-- The output workflow `use_custodian` produces from `wfC5` with filter
"static": only Firework 1 has its task substituted. -/
def wfC5out : Workflow :=
  { fws :=
      [ { fw_id := 1, name := "structure optimization run",
          tasks := [⟨"RunVaspDirect", [("vasp_cmd", "vasp")]⟩],
          trackers := none, priority := none },
        { fw_id := 2, name := "my static run",
          tasks := [⟨"RunVaspCustodian", [("vasp_cmd", "vasp")]⟩],
          trackers := none, priority := none } ],
    links := [(1, [2])], name := "wf" }

/-- The concrete workflow for the C7 witness: the single matched RunVasp task
carries no `"vasp_cmd"` parameter. -/
def wfC7 : Workflow :=
  { fws :=
      [ { fw_id := 1, name := "my static run",
          tasks := [⟨"WriteVaspFromIOSet", []⟩, ⟨"RunVaspDirect", [("other", "x")]⟩],
          trackers := none, priority := none } ],
    links := [], name := "wf" }

/-- The concrete no-match workflow used as the C8 witness: the single
Firework's name contains no known job-type label. -/
def wfC8 : Workflow :=
  { fws :=
      [ { fw_id := 1, name := "elastic deformation",
          tasks := [⟨"RunVaspDirect", [("vasp_cmd", "vasp")]⟩],
          trackers := none, priority := none } ],
    links := [], name := "wf" }

/-! ## Helper lemmas -/

theorem listUpd_get?_ne {α : Type} (l : List α) (f : α → α) :
    ∀ (i j : Nat), i ≠ j → (listUpd l i f).get? j = l.get? j := by
  induction l with
  | nil => intro i j _; simp [listUpd]
  | cons x xs ih =>
    intro i j hij
    cases i with
    | zero =>
      cases j with
      | zero => exact absurd rfl hij
      | succ j => simp [listUpd]
    | succ i =>
      cases j with
      | zero => simp [listUpd]
      | succ j =>
        simp only [listUpd, List.get?]
        exact ih i j (fun h => hij (by omega))

theorem listUpd_get?_self {α : Type} (l : List α) (f : α → α) :
    ∀ (i : Nat), (listUpd l i f).get? i = (l.get? i).map f := by
  induction l with
  | nil => intro i; simp [listUpd]
  | cons x xs ih =>
    intro i
    cases i with
    | zero => simp [listUpd]
    | succ i => simpa [listUpd] using ih i

theorem prefAt_self_append (n r : List Char) : prefAt n (n ++ r) = true := by
  induction n with
  | nil => simp [prefAt]
  | cons c cs ih => simp [prefAt, ih]

theorem hasSubLC_of_prefAt (n l : List Char) (h : prefAt n l = true) :
    hasSubLC n l = true := by
  cases l with
  | nil => simp [hasSubLC, h]
  | cons c cs => simp [hasSubLC, h]

theorem hasSubLC_append_left (s : List Char) (n l : List Char)
    (h : hasSubLC n l = true) : hasSubLC n (s ++ l) = true := by
  induction s with
  | nil => simpa using h
  | cons c cs ih =>
    have : hasSubLC n (c :: (cs ++ l)) = true := by
      simp only [hasSubLC, Bool.or_eq_true]
      exact Or.inr ih
    simpa using this

/-! ## C3: decorate_priority -/

/-- C3 counterexample: with `root_priority = 7` and a supplied
`child_priority = 0`, the non-root Firework's priority becomes 7, not the
configured 0, because Python's `child_priority or root_priority` treats the
integer 0 as falsy. -/
theorem decorate_priority_zero_cex :
    ((decorate_priority wfC3 7 (some 0)).fws.get? 1).map Firework.priority ≠
      some (some 0) := by decide

/-- C3 amended: after `decorate_priority`, every root Firework's priority is
`root_priority` and every other Firework's priority is `child_priority or
root_priority` in Python's falsy sense — a missing `child_priority` and a
supplied `child_priority` of 0 both fall back to `root_priority`. -/
theorem decorate_priority_spec (wf : Workflow) (rp : Int) (cp : Option Int)
    (i : Nat) (fw : Firework) (h : wf.fws.get? i = some fw) :
    (decorate_priority wf rp cp).fws.get? i =
      some (if (root_fw_ids wf).contains fw.fw_id then { fw with priority := some rp }
            else { fw with priority := some (pyIntOr cp rp) }) := by
  simp only [decorate_priority, List.get?_map, h, Option.map_some]
  by_cases hr : (root_fw_ids wf).contains fw.fw_id <;> simp [hr]

/-- Witness for C3's amended theorem at the concrete workflow `wfC3`. -/
theorem decorate_priority_spec_witness :
    (decorate_priority wfC3 7 (some 3)).fws.get? 1 =
      some { fw_id := 2, name := "static",
             tasks := [⟨"RunVaspDirect", [("vasp_cmd", "vasp")]⟩],
             trackers := none, priority := some 3 } := by
  have h := decorate_priority_spec wfC3 7 (some 3) 1
    { fw_id := 2, name := "static",
      tasks := [⟨"RunVaspDirect", [("vasp_cmd", "vasp")]⟩],
      trackers := none, priority := none } (by decide)
  simpa using h

/-! ## C1: add_modify_incar / decorate_write_name insertion position -/

/-- C1 evaluated at the failing input: the matched RunVasp task is at index 1,
so insertion "immediately before the matched task index" would give the task
order [WriteVaspFromIOSet, ModifyIncar, RunVaspDirect]; the code's
`insert(idx_t - 1, ...)` instead inserts at index 0, giving
[ModifyIncar, WriteVaspFromIOSet, RunVaspDirect] — contradicting the
function's own docstring ("a ModifyIncar task just beforehand").
`decorate_write_name` does insert its marker task at the front as claimed. -/
theorem add_modify_incar_bug_eval :
    ((add_modify_incar [("static", "d")] wfC1 [("key_update", "x")] none).fws.map
        (fun fw => fw.tasks.map Task.fw_name) =
      [["ModifyIncar", "WriteVaspFromIOSet", "RunVaspDirect"]]) ∧
    ((decorate_write_name wfC1 false).fws.map (fun fw => fw.tasks.map Task.fw_name) =
      [["FileWriteTask", "WriteVaspFromIOSet", "RunVaspDirect"]]) := by decide

/-! ## C9: LAMMPS builders -/

/-- C9: each LAMMPS builder returns a workflow with exactly one Firework whose
task list is exactly the two-task pipeline: first the write-input task built
from the selected template (file template for `wf_from_input_template`, the
built-in NVT template for `nvt_wf`), then the direct-run task whose command is
the binary path, `" -in "`, and the input filename. -/
theorem lammps_two_step (jn tf ld dfn ifn bin : String)
    (us : List (String × String)) (isf : Bool)
    (di ifn2 dfn2 bin2 : String) (us2 : List (String × String)) (isf2 : Bool) :
    ((wf_from_input_template jn tf ld dfn us isf ifn bin).fws.map
        (fun fw => fw.tasks) =
      [[writeLammpsTask (dictLammpsInputRepr jn tf ld dfn us isf) ifn,
        runLammpsTask (bin ++ " -in " ++ ifn)]]) ∧
    ((nvt_wf di ifn2 dfn2 us2 isf2 bin2).fws.map (fun fw => fw.tasks) =
      [[writeLammpsTask (nvtLammpsInputRepr di dfn2 us2 isf2) ifn2,
        runLammpsTask (bin2 ++ " -in " ++ ifn2)]]) :=
  ⟨rfl, rfl⟩

/-! ## C10: is_runvasp_task substring matching -/

/-- C10: `is_runvasp_task` holds exactly when `"RunVasp"` occurs in the
task's string representation, and in particular it matches the replacement
task types `RunVaspCustodian` and `RunVaspFake` themselves, whatever their
parameters — so tasks substituted by one powerup are matched again by a
subsequent powerup application. -/
theorem is_runvasp_substring :
    (∀ t : Task, is_runvasp_task t = strContains (taskStr t) "RunVasp") ∧
    (∀ ps : List (String × String), is_runvasp_task (custodianTask ps) = true) ∧
    (∀ d : String, is_runvasp_task (fakeTask d) = true) := by
  refine ⟨fun t => rfl, fun ps => ?_, fun d => ?_⟩
  · show strContains (taskStr (custodianTask ps)) "RunVasp" = true
    have hsplit : (taskStr (custodianTask ps)).toList =
        "<".toList ++ ("RunVasp".toList ++
          ("Custodian>:".toList ++ (paramsRepr ps).toList)) := by
      show ("<" ++ "RunVaspCustodian" ++ ">:" ++ paramsRepr ps).toList = _
      simp [String.toList, String.instAppend, String.append]
    unfold strContains
    rw [hsplit]
    exact hasSubLC_append_left _ _ _
      (hasSubLC_of_prefAt _ _ (prefAt_self_append _ _))
  · show strContains (taskStr (fakeTask d)) "RunVasp" = true
    have hsplit : (taskStr (fakeTask d)).toList =
        "<".toList ++ ("RunVasp".toList ++
          ("Fake>:".toList ++ (paramsRepr (fakeTask d).params).toList)) := by
      show ("<" ++ "RunVaspFake" ++ ">:" ++ paramsRepr (fakeTask d).params).toList = _
      simp [String.toList, String.instAppend, String.append]
    unfold strContains
    rw [hsplit]
    exact hasSubLC_append_left _ _ _
      (hasSubLC_of_prefAt _ _ (prefAt_self_append _ _))

/-! ## C4: make_fake_workflow on the two-Firework scenario -/

/-- C4: with the job-type map sending "structure optimization" to `dirA` and
"static" to `dirB`, `make_fake_workflow` replaces the run task of each
Firework by a `RunVaspFake` task pointing at `dirA` and `dirB` respectively,
leaving the task count and every other task entry in place. -/
theorem make_fake_workflow_two_fw (dirA dirB : String) (t0 : Task)
    (h : is_runvasp_task t0 = false) :
    (make_fake_workflow [("structure optimization", dirA), ("static", dirB)]
        (wfC4 t0)).fws.map (fun fw => fw.tasks) =
      [[t0, fakeTask dirA], [t0, fakeTask dirB]] := by
  have e1 : strContains "structure optimization" "structure optimization" = true := by
    decide
  have e2 : strContains "structure optimization" "static" = false := by decide
  have e3 : strContains "static" "structure optimization" = false := by decide
  have e4 : strContains "static" "static" = true := by decide
  have e5 : is_runvasp_task runDirectTask = true := by decide
  simp [make_fake_workflow, wfC4, fakeScanFWs, fakeScanLabels, fakeScanTasks,
    applyFakeUpdates, listUpd, e1, e2, e3, e4, e5, h]

/-- Witness for C4 at a concrete non-matching first task and concrete
directories. -/
theorem make_fake_workflow_two_fw_witness :
    (make_fake_workflow [("structure optimization", "dirA"), ("static", "dirB")]
        (wfC4 ⟨"WriteVaspFromIOSet", []⟩)).fws.map (fun fw => fw.tasks) =
      [[⟨"WriteVaspFromIOSet", []⟩, fakeTask "dirA"],
       [⟨"WriteVaspFromIOSet", []⟩, fakeTask "dirB"]] :=
  make_fake_workflow_two_fw "dirA" "dirB" ⟨"WriteVaspFromIOSet", []⟩ (by decide)

/-! ## C8: all powerups are no-ops when the scan finds nothing -/

theorem fakeScanTasks_map_fst (tasks : List Task) (i : Nat) (d : String) :
    ∀ n, (fakeScanTasks tasks i n d).map (fun u => (u.1, u.2.1)) = scanTasks tasks i n := by
  induction tasks with
  | nil => intro n; simp [fakeScanTasks, scanTasks]
  | cons t rest ih =>
    intro n
    by_cases hm : is_runvasp_task t <;>
      simp [fakeScanTasks, scanTasks, hm, ih (n + 1)]

theorem fakeScanLabels_map_fst (fake_dirs : List (String × String)) (fw : Firework)
    (i : Nat) :
    (fakeScanLabels fake_dirs fw i).map (fun u => (u.1, u.2.1)) = scanLabels fake_dirs fw i := by
  induction fake_dirs with
  | nil => simp [fakeScanLabels, scanLabels]
  | cons jd rest ih =>
    by_cases hm : strContains fw.name jd.1 <;>
      simp [fakeScanLabels, scanLabels, hm, ih, fakeScanTasks_map_fst]

theorem fakeScanFWs_map_fst (fake_dirs : List (String × String)) (fws : List Firework) :
    ∀ n, (fakeScanFWs fake_dirs fws n).map (fun u => (u.1, u.2.1)) = scanFWs fake_dirs fws n := by
  induction fws with
  | nil => intro n; simp [fakeScanFWs, scanFWs]
  | cons fw rest ih =>
    intro n
    simp [fakeScanFWs, scanFWs, ih (n + 1), fakeScanLabels_map_fst]

/-- C8: whenever `get_runvasp_fws_and_tasks` finds no pair, `use_custodian`,
`make_fake_workflow`, `add_trackers` and `add_modify_incar` all return the
incoming workflow unchanged (a successful return in the fallible
`use_custodian` case). -/
theorem powerups_noop_on_no_match (fake_dirs : List (String × String)) (wf : Workflow)
    (custodian_params modify_incar_params : List (String × String))
    (fil fil2 : Option String)
    (h : get_runvasp_fws_and_tasks fake_dirs wf = []) :
    use_custodian fake_dirs wf fil custodian_params = some wf ∧
    make_fake_workflow fake_dirs wf = wf ∧
    add_trackers fake_dirs wf = wf ∧
    add_modify_incar fake_dirs wf modify_incar_params fil2 = wf := by
  have hfake : fakeScanFWs fake_dirs wf.fws 0 = [] := by
    have hm := fakeScanFWs_map_fst fake_dirs wf.fws 0
    rw [show scanFWs fake_dirs wf.fws 0 = get_runvasp_fws_and_tasks fake_dirs wf from rfl,
      h] at hm
    exact List.map_eq_nil_iff.mp hm
  refine ⟨?_, ?_, ?_, ?_⟩
  · simp [use_custodian, h, custodianSteps]
  · simp [make_fake_workflow, hfake, applyFakeUpdates]
  · simp [add_trackers, h, trackerSteps]
  · simp [add_modify_incar, h, incarSteps]

/-- Witness for C8 at a concrete workflow with an empty scan result. -/
theorem powerups_noop_on_no_match_witness :
    use_custodian [("static", "d")] wfC8 none [] = some wfC8 ∧
    make_fake_workflow [("static", "d")] wfC8 = wfC8 ∧
    add_trackers [("static", "d")] wfC8 = wfC8 ∧
    add_modify_incar [("static", "d")] wfC8 [] none = wfC8 :=
  powerups_noop_on_no_match [("static", "d")] wfC8 [] [] none none (by decide)

/-! ## C5: use_custodian touches only name-matching Fireworks -/

theorem custodianStep_get?_ne (fil : Option String) (cp : List (String × String))
    (wfa : Workflow) (p : Nat × Nat) (wfc : Workflow)
    (hstep : custodianStep fil cp wfa p = some wfc) (i : Nat) (hne : p.1 ≠ i) :
    wfc.fws.get? i = wfa.fws.get? i := by
  by_cases hok : custodianNameOk fil wfa p.1
  · rw [custodianStep, if_pos hok] at hstep
    by_cases hv : (lookupD cp "vasp_cmd").isSome
    · rw [if_pos hv] at hstep
      cases hstep
      exact listUpd_get?_ne _ _ _ _ hne
    · rw [if_neg hv] at hstep
      cases hget : (wfa.fws.get? p.1).bind (fun fw => fw.tasks.get? p.2) with
      | none => rw [hget] at hstep; cases hstep
      | some tk =>
        rw [hget, Option.some_bind] at hstep
        cases hlook : lookupD tk.params "vasp_cmd" with
        | none => rw [hlook] at hstep; cases hstep
        | some cmd =>
          rw [hlook, Option.map_some'] at hstep
          cases hstep
          exact listUpd_get?_ne _ _ _ _ hne
  · rw [custodianStep, if_neg hok] at hstep
    cases hstep
    rfl

theorem custodianSteps_preserve (F : String) (cp : List (String × String)) :
    ∀ (l : List (Nat × Nat)) (wfa wfb : Workflow),
      custodianSteps (some F) cp l wfa = some wfb →
      ∀ (i : Nat) (fw : Firework), wfa.fws.get? i = some fw →
        strContains fw.name F = false → wfb.fws.get? i = some fw := by
  intro l
  induction l with
  | nil =>
    intro wfa wfb h i fw hfw hF
    simp only [custodianSteps] at h
    cases h
    exact hfw
  | cons p rest ih =>
    intro wfa wfb h i fw hfw hF
    simp only [custodianSteps] at h
    cases hstep : custodianStep (some F) cp wfa p with
    | none => rw [hstep] at h; cases h
    | some wfc =>
      rw [hstep] at h
      refine ih wfc wfb h i fw ?_ hF
      by_cases hpi : p.1 = i
      · have hok : custodianNameOk (some F) wfa p.1 = false := by
          unfold custodianNameOk
          rw [hpi, hfw]
          simp [hF]
        have hstep2 : custodianStep (some F) cp wfa p = some wfa := by
          rw [custodianStep, hok]
          simp
        rw [hstep] at hstep2
        cases hstep2
        exact hfw
      · rw [custodianStep_get?_ne (some F) cp wfa p wfc hstep i hpi]
        exact hfw

/-- C5: a `use_custodian` call with a name filter `F` that returns a workflow
leaves every Firework whose name does not contain `F` exactly as it was in
the input. -/
theorem use_custodian_frame (fake_dirs : List (String × String)) (wf : Workflow)
    (F : String) (cp : List (String × String)) (wf2 : Workflow)
    (hrun : use_custodian fake_dirs wf (some F) cp = some wf2)
    (i : Nat) (fw : Firework) (hfw : wf.fws.get? i = some fw)
    (hF : strContains fw.name F = false) :
    wf2.fws.get? i = some fw :=
  custodianSteps_preserve F cp (get_runvasp_fws_and_tasks fake_dirs wf) wf wf2 hrun
    i fw hfw hF

/-- Witness for C5: in the concrete run only the matching Firework changes,
and the non-matching Firework 0 is returned exactly as supplied. -/
theorem use_custodian_frame_witness :
    wfC5out.fws.get? 0 =
      some { fw_id := 1, name := "structure optimization run",
             tasks := [⟨"RunVaspDirect", [("vasp_cmd", "vasp")]⟩],
             trackers := none, priority := none } :=
  use_custodian_frame [("static", "dS"), ("structure optimization", "dO")]
    wfC5 "static" [] wfC5out (by decide) 0
    { fw_id := 1, name := "structure optimization run",
      tasks := [⟨"RunVaspDirect", [("vasp_cmd", "vasp")]⟩],
      trackers := none, priority := none } (by decide) (by decide)

/-! ## C7: the unguarded "vasp_cmd" lookup in use_custodian -/

theorem custodianStep_preserves_taskVaspCmd (fil : Option String)
    (cp : List (String × String)) (wfa : Workflow) (q : Nat × Nat) (wfc : Workflow)
    (hstep : custodianStep fil cp wfa q = some wfc) (p : Nat × Nat) (hne : q ≠ p)
    (hv : (lookupD cp "vasp_cmd").isSome = false) :
    taskVaspCmd wfc p = taskVaspCmd wfa p := by
  by_cases hok : custodianNameOk fil wfa q.1
  · rw [custodianStep, if_pos hok, hv] at hstep
    simp only [Bool.false_eq_true, if_false] at hstep
    cases hget : (wfa.fws.get? q.1).bind (fun fw => fw.tasks.get? q.2) with
    | none => rw [hget] at hstep; cases hstep
    | some tk =>
      rw [hget, Option.some_bind] at hstep
      cases hlook : lookupD tk.params "vasp_cmd" with
      | none => rw [hlook] at hstep; cases hstep
      | some cmd =>
        rw [hlook, Option.map_some'] at hstep
        cases hstep
        by_cases h1 : q.1 = p.1
        · have h2 : q.2 ≠ p.2 := by
            intro h2
            exact hne (Prod.ext h1 h2)
          unfold taskVaspCmd replaceTaskAt
          rw [h1, listUpd_get?_self]
          cases hp1 : wfa.fws.get? p.1 with
          | none => rfl
          | some fw =>
            simp only [Option.map_some', Option.some_bind]
            rw [listUpd_get?_ne _ _ _ _ h2]
        · unfold taskVaspCmd replaceTaskAt
          rw [listUpd_get?_ne _ _ _ _ h1]
  · rw [custodianStep, if_neg hok] at hstep
    cases hstep
    rfl

theorem custodianSteps_fail (cp : List (String × String))
    (hcp : (lookupD cp "vasp_cmd").isSome = false) :
    ∀ (l : List (Nat × Nat)) (p : Nat × Nat) (wfa : Workflow),
      p ∈ l → taskVaspCmd wfa p = none →
      custodianSteps none cp l wfa = none := by
  intro l
  induction l with
  | nil => intro p wfa hmem _; cases hmem
  | cons q rest ih =>
    intro p wfa hmem hvc
    have hokq : custodianNameOk none wfa q.1 = true := rfl
    by_cases hqp : q = p
    · have hstepnone : custodianStep none cp wfa q = none := by
        rw [custodianStep, if_pos hokq, hcp]
        simp only [Bool.false_eq_true, if_false]
        rw [hqp]
        unfold taskVaspCmd at hvc
        cases hget : (wfa.fws.get? p.1).bind (fun fw => fw.tasks.get? p.2) with
        | none => rfl
        | some tk =>
          rw [hget, Option.some_bind] at hvc
          rw [Option.some_bind, hvc, Option.map_none']
      simp [custodianSteps, hstepnone]
    · cases hstep : custodianStep none cp wfa q with
      | none => simp [custodianSteps, hstep]
      | some wfc =>
        have hmem2 : p ∈ rest := by
          cases List.mem_cons.mp hmem with
          | inl h => exact absurd h.symm hqp
          | inr h => exact h
        have hvc2 : taskVaspCmd wfc p = none := by
          rw [custodianStep_preserves_taskVaspCmd none cp wfa q wfc hstep p hqp hcp]
          exact hvc
        simp [custodianSteps, hstep, ih p wfc hmem2 hvc2]

theorem custodianSteps_success (fil : Option String) (cp : List (String × String))
    (hcp : (lookupD cp "vasp_cmd").isSome = true) :
    ∀ (l : List (Nat × Nat)) (wfa : Workflow),
      (custodianSteps fil cp l wfa).isSome = true := by
  intro l
  induction l with
  | nil => intro wfa; rfl
  | cons q rest ih =>
    intro wfa
    by_cases hok : custodianNameOk fil wfa q.1
    · have hstep : custodianStep fil cp wfa q =
          some (replaceTaskAt wfa q.1 q.2 (custodianTask cp)) := by
        rw [custodianStep, if_pos hok, hcp]
        simp
      simp [custodianSteps, hstep, ih]
    · have hstep : custodianStep fil cp wfa q = some wfa := by
        rw [custodianStep, if_neg hok]
      simp [custodianSteps, hstep, ih]

/-- C7: when `custodian_params` does not supply `"vasp_cmd"` and some matched
pair's task lacks a `"vasp_cmd"` entry, `use_custodian` (with no name filter)
fails with the unguarded lookup (`none`); when `custodian_params` does supply
`"vasp_cmd"`, the call always succeeds, for every workflow and filter —
no lookup into any matched task's parameter map is needed. -/
theorem use_custodian_vasp_cmd (fake_dirs : List (String × String)) (wf : Workflow)
    (cp : List (String × String)) :
    ((lookupD cp "vasp_cmd").isSome = false →
      ∀ p ∈ get_runvasp_fws_and_tasks fake_dirs wf, taskVaspCmd wf p = none →
        use_custodian fake_dirs wf none cp = none) ∧
    ((lookupD cp "vasp_cmd").isSome = true →
      ∀ fil : Option String, (use_custodian fake_dirs wf fil cp).isSome = true) := by
  constructor
  · intro hcp p hmem hvc
    exact custodianSteps_fail cp hcp (get_runvasp_fws_and_tasks fake_dirs wf) p wf
      hmem hvc
  · intro hcp fil
    exact custodianSteps_success fil cp hcp (get_runvasp_fws_and_tasks fake_dirs wf) wf

/-- Witness for C7: on `wfC7` the call without `"vasp_cmd"` in
`custodian_params` fails, and supplying `"vasp_cmd"` makes it succeed. -/
theorem use_custodian_vasp_cmd_witness :
    use_custodian [("static", "d")] wfC7 none [] = none ∧
    (use_custodian [("static", "d")] wfC7 none [("vasp_cmd", "vasp")]).isSome = true :=
  ⟨(use_custodian_vasp_cmd [("static", "d")] wfC7 []).1 (by decide) (0, 1)
      (by decide) (by decide),
   (use_custodian_vasp_cmd [("static", "d")] wfC7 [("vasp_cmd", "vasp")]).2
      (by decide) none⟩

/-! ## C2: add_trackers appends per matched pair -/

theorem iterate_extendTrackers (k : Nat) (fw : Firework) :
    extendTrackers^[k] fw = { fw with trackers := appendedTrackers fw.trackers k } := by
  induction k with
  | zero => rfl
  | succ k ih =>
    rw [Function.iterate_succ_apply', ih]
    cases k with
    | zero =>
      cases htr : fw.trackers with
      | none => simp [extendTrackers, appendedTrackers, htr, trackersAdded]
      | some l => simp [extendTrackers, appendedTrackers, htr, trackersAdded]
    | succ k =>
      simp [extendTrackers, appendedTrackers, trackersAdded]

theorem trackerSteps_get? (i : Nat) :
    ∀ (l : List (Nat × Nat)) (fws : List Firework),
      (trackerSteps l fws).get? i =
        (fws.get? i).map (fun fw => extendTrackers^[l.countP (fun p => p.1 == i)] fw) := by
  intro l
  induction l with
  | nil =>
    intro fws
    simp [trackerSteps]
  | cons p rest ih =>
    intro fws
    rw [trackerSteps, ih]
    by_cases hpi : p.1 = i
    · rw [hpi, listUpd_get?_self]
      rw [List.countP_cons_of_pos _ _ (by simp [hpi])]
      cases fws.get? i with
      | none => rfl
      | some fw =>
        simp only [Option.map_some']
        rw [← Function.iterate_succ_apply]
    · rw [listUpd_get?_ne _ _ _ _ hpi]
      rw [List.countP_cons_of_neg _ _ (by simp [hpi])]

/-- C2 amended: one `add_trackers` invocation appends the fixed tracker pair
to a Firework once per matched (firework-index, task-index) pair — so a
Firework with `k` matched pairs gains `2 k` trackers appended after its
previous tracker list, and a Firework with no matched pair keeps its tracker
state (including absence of the entry) unchanged. -/
theorem add_trackers_spec (fake_dirs : List (String × String)) (wf : Workflow)
    (i : Nat) (fw : Firework) (h : wf.fws.get? i = some fw) :
    (add_trackers fake_dirs wf).fws.get? i =
      some { fw with
             trackers := appendedTrackers fw.trackers
               ((get_runvasp_fws_and_tasks fake_dirs wf).countP (fun p => p.1 == i)) } := by
  show (trackerSteps (get_runvasp_fws_and_tasks fake_dirs wf) wf.fws).get? i = _
  rw [trackerSteps_get? i _ wf.fws, h, Option.map_some', iterate_extendTrackers]

/-- C2 counterexample: after one `add_trackers` invocation on `wfC2`, the
matched Firework's tracker list holds the fixed pair twice (four trackers),
not "exactly once per invocation" as the claim states. -/
theorem add_trackers_per_pair_cex :
    ((add_trackers [("static", "d")] wfC2).fws.get? 0).map Firework.trackers =
      some (some [tracker1, tracker2, tracker1, tracker2]) ∧
    ((add_trackers [("static", "d")] wfC2).fws.get? 0).map Firework.trackers ≠
      some (some [tracker1, tracker2]) := by decide

/-- Witness for C2's amended theorem: a Firework with a single matched pair
gains exactly one copy of the fixed tracker pair. -/
theorem add_trackers_spec_witness :
    (add_trackers [("static", "d")] wfC1).fws.get? 0 =
      some { fw_id := 1, name := "my static run",
             tasks := [⟨"WriteVaspFromIOSet", []⟩, ⟨"RunVaspDirect", [("vasp_cmd", "vasp")]⟩],
             trackers := some [tracker1, tracker2], priority := none } := by
  have h := add_trackers_spec [("static", "d")] wfC1 0
    { fw_id := 1, name := "my static run",
      tasks := [⟨"WriteVaspFromIOSet", []⟩, ⟨"RunVaspDirect", [("vasp_cmd", "vasp")]⟩],
      trackers := none, priority := none } (by decide)
  rw [h]
  decide

/-! ## C6: get_runvasp_fws_and_tasks is a full linear scan -/

theorem taskMatchAt_cons_succ (tk : Task) (rest : List Task) (k : Nat) :
    taskMatchAt (tk :: rest) (k + 1) = taskMatchAt rest k := rfl

theorem count_pair_singleton (a b : Nat × Nat) :
    List.count a [b] = if b = a then 1 else 0 := by
  by_cases h : b = a <;> simp [List.count_cons, h]

theorem scanTasks_count (i t : Nat) :
    ∀ (tasks : List Task) (i0 n : Nat),
      List.count (i, t) (scanTasks tasks i0 n) =
        if i = i0 ∧ n ≤ t ∧ taskMatchAt tasks (t - n) then 1 else 0 := by
  intro tasks
  induction tasks with
  | nil =>
    intro i0 n
    simp [scanTasks, taskMatchAt]
  | cons tk rest ih =>
    intro i0 n
    rw [scanTasks, List.count_append, ih i0 (n + 1)]
    by_cases hi : i = i0
    · subst hi
      rcases Nat.lt_trichotomy t n with hlt | heq | hgt
      · have h1 : ¬ (n + 1 ≤ t) := by omega
        have h2 : ¬ (n ≤ t) := by omega
        have h3 : List.count (i, t) (if is_runvasp_task tk then [(i, n)] else []) = 0 := by
          by_cases hm : is_runvasp_task tk <;>
            simp [hm, count_pair_singleton, Prod.ext_iff, show ¬ (n = t) from by omega]
        simp [h1, h2, h3]
      · subst heq
        have h1 : ¬ (t + 1 ≤ t) := by omega
        have h2 : t - t = 0 := by omega
        have h3 : taskMatchAt (tk :: rest) 0 = is_runvasp_task tk := rfl
        by_cases hm : is_runvasp_task tk <;>
          simp [h1, h2, h3, hm, count_pair_singleton]
      · have h1 : List.count (i, t) (if is_runvasp_task tk then [(i, n)] else []) = 0 := by
          by_cases hm : is_runvasp_task tk <;>
            simp [hm, count_pair_singleton, Prod.ext_iff, show ¬ (n = t) from by omega]
        have h2 : t - n = (t - (n + 1)) + 1 := by omega
        rw [h1, h2, taskMatchAt_cons_succ]
        have h3 : (n + 1 ≤ t) = (n ≤ t) := by
          apply propext
          constructor <;> (intro hx; omega)
        simp [h3]
    · have h1 : List.count (i, t) (if is_runvasp_task tk then [(i0, n)] else []) = 0 := by
        by_cases hm : is_runvasp_task tk <;>
          simp [hm, count_pair_singleton, Prod.ext_iff, hi]
      simp [h1, hi]

theorem scanLabels_count (i t : Nat) (fake_dirs : List (String × String))
    (fw : Firework) (i0 : Nat) :
    List.count (i, t) (scanLabels fake_dirs fw i0) =
      labelMatchCount fake_dirs fw.name * List.count (i, t) (scanTasks fw.tasks i0 0) := by
  induction fake_dirs with
  | nil => simp [scanLabels, labelMatchCount]
  | cons jd rest ih =>
    rw [scanLabels, List.count_append, ih]
    simp only [labelMatchCount, List.filter_cons]
    by_cases hm : strContains fw.name jd.1
    · simp only [hm, if_true, List.length_cons]
      ring
    · simp only [hm, Bool.false_eq_true, if_false, List.count_nil]
      ring

theorem scanFWs_count (i t : Nat) (fake_dirs : List (String × String)) :
    ∀ (fws : List Firework) (n : Nat),
      List.count (i, t) (scanFWs fake_dirs fws n) =
        if n ≤ i then
          (match fws.get? (i - n) with
           | some fw =>
             labelMatchCount fake_dirs fw.name * List.count (i, t) (scanTasks fw.tasks i 0)
           | none => 0)
        else 0 := by
  intro fws
  induction fws with
  | nil =>
    intro n
    simp [scanFWs]
  | cons fw rest ih =>
    intro n
    rw [scanFWs, List.count_append, ih (n + 1), scanLabels_count]
    rcases Nat.lt_trichotomy i n with hlt | heq | hgt
    · have h0 : List.count (i, t) (scanTasks fw.tasks n 0) = 0 := by
        rw [scanTasks_count]
        simp [show ¬ (i = n) from by omega]
      simp [h0, show ¬ (n + 1 ≤ i) from by omega, show ¬ (n ≤ i) from by omega]
    · subst heq
      have hit : i - i = 0 := by omega
      simp [show ¬ (i + 1 ≤ i) from by omega, hit]
    · have h0 : List.count (i, t) (scanTasks fw.tasks n 0) = 0 := by
        rw [scanTasks_count]
        simp [show ¬ (i = n) from by omega]
      have h2 : i - n = (i - (n + 1)) + 1 := by omega
      rw [h0, h2]
      simp [show n + 1 ≤ i from by omega, show n ≤ i from by omega]

/-- Quantitative corollary of the scan shape: the pair `(i, t)` occurs in
the result exactly once per job-type label contained in Firework `i`'s name
when task `t`'s string representation contains "RunVasp", and never
otherwise. -/
theorem get_runvasp_scan_count (fake_dirs : List (String × String)) (wf : Workflow)
    (i t : Nat) (fw : Firework) (tk : Task)
    (hfw : wf.fws.get? i = some fw) (htk : fw.tasks.get? t = some tk) :
    List.count (i, t) (get_runvasp_fws_and_tasks fake_dirs wf) =
      if is_runvasp_task tk then labelMatchCount fake_dirs fw.name else 0 := by
  rw [get_runvasp_fws_and_tasks, scanFWs_count]
  simp only [Nat.zero_le, if_true, Nat.sub_zero, hfw]
  rw [scanTasks_count]
  have hmt : taskMatchAt fw.tasks t = is_runvasp_task tk := by
    rw [taskMatchAt, htk]
  simp [hmt, mul_ite]

/-- Concrete check of the count corollary at a workflow whose Firework name
contains two distinct job-type labels: the matched pair is reported twice
(no deduplication). -/
theorem get_runvasp_scan_count_witness :
    List.count (0, 1) (get_runvasp_fws_and_tasks [("static", "dS"), ("st", "d2")] wfC1) = 2 := by
  have h := get_runvasp_scan_count [("static", "dS"), ("st", "d2")] wfC1 0 1
    { fw_id := 1, name := "my static run",
      tasks := [⟨"WriteVaspFromIOSet", []⟩, ⟨"RunVaspDirect", [("vasp_cmd", "vasp")]⟩],
      trackers := none, priority := none }
    ⟨"RunVaspDirect", [("vasp_cmd", "vasp")]⟩ (by decide) (by decide)
  rw [h]
  decide

theorem scanTasks_eq_filterMap (i0 : Nat) :
    ∀ (tasks : List Task) (n : Nat),
      scanTasks tasks i0 n =
        (List.enumFrom n tasks).filterMap (fun pt =>
          if is_runvasp_task pt.2 then some (i0, pt.1) else none) := by
  intro tasks
  induction tasks with
  | nil => intro n; rfl
  | cons tk rest ih =>
    intro n
    rw [scanTasks, ih (n + 1)]
    by_cases hm : is_runvasp_task tk <;>
      simp [List.enumFrom, List.filterMap_cons, hm]

theorem scanLabels_eq_flatMap (fake_dirs : List (String × String)) (fw : Firework)
    (i0 : Nat) :
    scanLabels fake_dirs fw i0 =
      fake_dirs.flatMap (fun jd =>
        if strContains fw.name jd.1 then scanTasks fw.tasks i0 0 else []) := by
  induction fake_dirs with
  | nil => rfl
  | cons jd rest ih => rw [scanLabels, ih]; rfl

theorem scanFWs_eq_flatMap (fake_dirs : List (String × String)) :
    ∀ (fws : List Firework) (n : Nat),
      scanFWs fake_dirs fws n =
        (List.enumFrom n fws).flatMap (fun pfw =>
          fake_dirs.flatMap (fun jd =>
            if strContains pfw.2.name jd.1 then
              pfw.2.tasks.enum.filterMap (fun pt =>
                if is_runvasp_task pt.2 then some (pfw.1, pt.1) else none)
            else [])) := by
  intro fws
  induction fws with
  | nil => intro n; rfl
  | cons fw rest ih =>
    intro n
    rw [scanFWs, ih (n + 1), scanLabels_eq_flatMap]
    have harm : (fun jd : String × String =>
        if strContains fw.name jd.1 then scanTasks fw.tasks n 0 else []) =
        (fun jd : String × String =>
          if strContains fw.name jd.1 then
            fw.tasks.enum.filterMap (fun pt =>
              if is_runvasp_task pt.2 then some (n, pt.1) else none)
          else []) := by
      funext jd
      rw [scanTasks_eq_filterMap n fw.tasks 0]
      rfl
    rw [harm]
    rfl

/-- C6: the scan is a full linear pass with no short-circuiting and no
deduplication: the returned list is exactly — contents, multiplicity and
scan order — the list obtained by iterating every Firework in index order,
for each Firework every known job-type label in order, and, when the label
is a substring of the Firework's name, every task index in order, appending
the pair (firework-index, task-index) exactly when the task's string
representation contains "RunVasp" (the specification-shaped
`scanSpecPairs`). -/
theorem get_runvasp_scan_exact (fake_dirs : List (String × String)) (wf : Workflow) :
    get_runvasp_fws_and_tasks fake_dirs wf = scanSpecPairs fake_dirs wf := by
  rw [get_runvasp_fws_and_tasks, scanFWs_eq_flatMap fake_dirs wf.fws 0]
  rfl

end MM
